import Mathlib

/-! Verification of the vibecop fixture corpus.

The repository consists of exactly two static Python fixture files,
`test-fixtures/mypy-issues.py` (inputs for an external type checker) and
`test-fixtures/ruff-issues.py` (inputs for an external linter).  Each file is
embedded below verbatim as the list of its source lines, and the corpus of
violation examples is modelled as a table naming, for each example, the file
and the 1-based line number of its violating line.  All properties proved here
are about this embedded text. -/

namespace Vibecop

/-- Verbatim source lines of `test-fixtures/mypy-issues.py`, in order. -/
def mypyIssuesLines : List String := [
  "# Mypy test file - intentionally dirty code for type checking",
  "# This file triggers various Mypy type errors",
  "",
  "from typing import List, Dict, Optional, Union, Callable",
  "",
  "",
  "# Return type mismatch",
  "def returns_wrong_type() -> str:",
  "    return 42  # error: Incompatible return value type (got \"int\", expected \"str\")",
  "",
  "",
  "# Argument type mismatch",
  "def expects_string(s: str) -> None:",
  "    print(s)",
  "",
  "",
  "def call_with_wrong_type():",
  "    expects_string(123)  # error: Argument 1 has incompatible type \"int\"; expected \"str\"",
  "",
  "",
  "# Missing return statement",
  "def missing_return() -> int:",
  "    x = 5",
  "    # error: Missing return statement",
  "",
  "",
  "# Incompatible types in assignment",
  "def incompatible_assignment():",
  "    x: str = \"hello\"",
  "    x = 42  # error: Incompatible types in assignment",
  "",
  "",
  "# None handling issues",
  "def none_issues(x: Optional[str]) -> str:",
  "    return x.upper()  # error: Item \"None\" of \"Optional[str]\" has no attribute \"upper\"",
  "",
  "",
  "# List type issues",
  "def list_type_issues():",
  "    items: List[int] = [1, 2, 3]",
  "    items.append(\"four\")  # error: Argument 1 has incompatible type \"str\"; expected \"int\"",
  "",
  "",
  "# Dict type issues",
  "def dict_type_issues():",
  "    data: Dict[str, int] = \x7b\"a\": 1\x7d",
  "    data[\"b\"] = \"two\"  # error: Incompatible types in assignment",
  "",
  "",
  "# Union type narrowing issues",
  "def union_issues(x: Union[int, str]) -> int:",
  "    return x + 1  # error: Unsupported operand types for + (\"str\" and \"int\")",
  "",
  "",
  "# Callable type issues",
  "def callable_issues():",
  "    func: Callable[[int], str] = lambda x: x * 2  # error: Incompatible return type",
  "",
  "",
  "# Attribute access on wrong type",
  "class MyClass:",
  "    def __init__(self):",
  "        self.value: int = 0",
  "",
  "",
  "def attribute_issues():",
  "    obj: MyClass = MyClass()",
  "    print(obj.nonexistent)  # error: \"MyClass\" has no attribute \"nonexistent\"",
  "",
  "",
  "# Incompatible override",
  "class Base:",
  "    def method(self, x: int) -> str:",
  "        return str(x)",
  "",
  "",
  "class Derived(Base):",
  "    def method(self, x: str) -> int:  # error: Argument 1 incompatible with supertype",
  "        return len(x)",
  "",
  "",
  "# Generic type issues",
  "def generic_issues():",
  "    from typing import TypeVar",
  "",
  "    T = TypeVar(\x27T\x27)",
  "",
  "    def identity(x: T) -> T:",
  "        return x",
  "",
  "    result: str = identity(42)  # error: Incompatible types in assignment",
  "",
  "",
  "# Protocol violations",
  "from typing import Protocol",
  "",
  "",
  "class Drawable(Protocol):",
  "    def draw(self) -> None: ...",
  "",
  "",
  "class Circle:",
  "    pass  # Missing draw method",
  "",
  "",
  "def draw_shape(shape: Drawable) -> None:",
  "    shape.draw()",
  "",
  "",
  "def protocol_violation():",
  "    c = Circle()",
  "    draw_shape(c)  # error: Argument 1 has incompatible type \"Circle\"",
  "",
  "",
  "# Literal type issues",
  "from typing import Literal",
  "",
  "",
  "def literal_issues():",
  "    mode: Literal[\"read\", \"write\"] = \"execute\"  # error: Incompatible types",
  "",
  "",
  "# TypedDict issues",
  "from typing import TypedDict",
  "",
  "",
  "class Person(TypedDict):",
  "    name: str",
  "    age: int",
  "",
  "",
  "def typeddict_issues():",
  "    person: Person = \x7b\"name\": \"Alice\"\x7d  # error: Missing key \x27age\x27",
  "    person[\"height\"] = 170  # error: TypedDict \"Person\" has no key \x27height\x27",
  "",
  "",
  "# Overload issues",
  "from typing import overload",
  "",
  "",
  "@overload",
  "def process(x: int) -> int: ...",
  "@overload",
  "def process(x: str) -> str: ...",
  "",
  "",
  "def process(x):  # error: Missing type annotation",
  "    return x",
  "",
  "",
  "# Variance issues",
  "",
  "",
  "def variance_issues():",
  "    ints: List[int] = [1, 2, 3]",
  "    objects: List[object] = ints  # error: Incompatible types (invariance)",
  ""
]

/-- Verbatim source lines of `test-fixtures/ruff-issues.py`, in order. -/
def ruffIssuesLines : List String := [
  "# Ruff test file - intentionally dirty code for linting",
  "# This file triggers various Ruff rules",
  "",
  "from collections import *  # F403: Star import",
  "",
  "# E501: Line too long (this comment is intentionally very very very very very very very very very very very very long)",
  "",
  "def badly_formatted_function(x,y,z):  # E251: Missing whitespace around parameter equals",
  "    \"\"\"Missing blank lines, bad spacing.\"\"\"",
  "    a=1  # E225: Missing whitespace around operator",
  "    b =2  # E221: Multiple spaces before operator",
  "    c= 3  # E222: Missing space after operator",
  "    if x==1:  # E225: Missing whitespace around comparison",
  "        pass",
  "    return a+b+c  # E225: Missing whitespace around operator",
  "",
  "",
  "class badlyNamedClass:  # N801: Class name should use CapWords convention",
  "    def __init__(self):",
  "        self.BadAttribute = 1  # N815: Mixed case variable in class scope",
  "",
  "    def BadMethodName(self):  # N802: Function name should be lowercase",
  "        pass",
  "",
  "",
  "def unused_variable_function():",
  "    unused_var = 42  # F841: Local variable is assigned but never used",
  "    x = 1",
  "    return x",
  "",
  "",
  "def unreachable_code():",
  "    return 1",
  "    print(\"never reached\")  # F821 style: unreachable code after return",
  "",
  "",
  "# E302: Expected 2 blank lines, found 1",
  "def missing_blank_lines():",
  "    pass",
  "",
  "CONSTANT = \"value\"",
  "constant_lowercase = \"bad\"  # N816: Variable in module scope should be UPPER_CASE",
  "",
  "",
  "# Comparison issues",
  "def comparison_issues(x):",
  "    if x == None:  # E711: Comparison to None should be \x27is None\x27",
  "        pass",
  "    if x == True:  # E712: Comparison to True should be \x27if x:\x27 or \x27if x is True:\x27",
  "        pass",
  "    if type(x) == int:  # E721: Use isinstance() instead of type comparison",
  "        pass",
  "",
  "",
  "# f-string issues",
  "def fstring_issues():",
  "    name = \"world\"",
  "    greeting = \"hello\"  # F541: f-string without placeholders",
  "    return greeting",
  "",
  "",
  "# Lambda assignment",
  "square = lambda x: x * x  # E731: Do not assign a lambda expression, use a def",
  "",
  "",
  "# Bare except",
  "def bare_except_handler():",
  "    try:",
  "        pass",
  "    except Exception:",
  "        pass",
  "",
  "",
  "# Mutable default argument",
  "def mutable_default(items=[]):  # B006: Do not use mutable data structures for argument defaults",
  "    items.append(1)",
  "    return items",
  "",
  "",
  "# Assert with tuple",
  "def assert_tuple():",
  "    assert (1, 2)  # B011: Do not use assert with a tuple, it\x27s always True",
  "",
  "",
  "# Duplicate keys in dict",
  "duplicate_dict = \x7b",
  "    \"key\": 1,",
  "    \"key\": 2,  # Duplicate key",
  "\x7d"
]

/-- All lines of the corpus, both fixture files concatenated. -/
def allFixtureLines : List String := mypyIssuesLines ++ ruffIssuesLines

/-- 1-based line lookup in a file given as its list of lines. -/
def lineAt (ls : List String) (n : Nat) : String := ls.getD (n - 1) ""

/-- Does character list `p` occur at the head of the second list? -/
def startsList : List Char → List Char → Bool
  | [], _ => true
  | _ :: _, [] => false
  | a :: as, b :: bs => a == b && startsList as bs

/-- Does character list `p` occur contiguously somewhere in the second list? -/
def subList (p : List Char) : List Char → Bool
  | [] => p.isEmpty
  | b :: bs => startsList p (b :: bs) || subList p bs

/-- Does string `s` contain `sub` as a contiguous substring? -/
def strContains (s sub : String) : Bool := subList sub.data s.data

/-- Characters of a line strictly before its first `#`. -/
def takeUntilHash : List Char → List Char
  | [] => []
  | c :: cs => if c == '#' then [] else c :: takeUntilHash cs

/-- The Python code part of a line: the text before the first `#`. -/
def codePart (l : String) : String := ⟨takeUntilHash l.data⟩

/-- A line carries a comment exactly when it contains a `#`. -/
def hasComment (l : String) : Bool := strContains l "#"

/-- Drop leading space characters. -/
def dropSpaces : List Char → List Char
  | [] => []
  | c :: cs => if c == ' ' then dropSpaces cs else c :: cs

/-- Strip leading and trailing spaces of a line. -/
def trimSpaces (s : String) : String :=
  ⟨dropSpaces ((dropSpaces s.data.reverse).reverse)⟩

/-- One violation example of the corpus: its (function or binding) name, the
fixture file it lives in, and the 1-based number of its violating line, the
line at which the expected diagnostic is aimed. -/
structure ViolationExample where
  name : String
  file : String
  violatingLine : Nat
  deriving DecidableEq, Repr

/-- The violation examples of `mypy-issues.py`, in source order. -/
def mypyExamples : List ViolationExample := [
  ⟨"returns_wrong_type", "mypy-issues.py", 9⟩,
  ⟨"call_with_wrong_type", "mypy-issues.py", 18⟩,
  ⟨"missing_return", "mypy-issues.py", 22⟩,
  ⟨"incompatible_assignment", "mypy-issues.py", 30⟩,
  ⟨"none_issues", "mypy-issues.py", 35⟩,
  ⟨"list_type_issues", "mypy-issues.py", 41⟩,
  ⟨"dict_type_issues", "mypy-issues.py", 47⟩,
  ⟨"union_issues", "mypy-issues.py", 52⟩,
  ⟨"callable_issues", "mypy-issues.py", 57⟩,
  ⟨"attribute_issues", "mypy-issues.py", 68⟩,
  ⟨"Derived.method", "mypy-issues.py", 78⟩,
  ⟨"generic_issues", "mypy-issues.py", 91⟩,
  ⟨"protocol_violation", "mypy-issues.py", 112⟩,
  ⟨"literal_issues", "mypy-issues.py", 120⟩,
  ⟨"typeddict_issues", "mypy-issues.py", 133⟩,
  ⟨"typeddict_issues", "mypy-issues.py", 134⟩,
  ⟨"process", "mypy-issues.py", 147⟩,
  ⟨"variance_issues", "mypy-issues.py", 156⟩]

/-- The violation examples of `ruff-issues.py`, in source order. -/
def ruffExamples : List ViolationExample := [
  ⟨"star_import", "ruff-issues.py", 4⟩,
  ⟨"long_line", "ruff-issues.py", 6⟩,
  ⟨"badly_formatted_function", "ruff-issues.py", 8⟩,
  ⟨"badly_formatted_function", "ruff-issues.py", 10⟩,
  ⟨"badly_formatted_function", "ruff-issues.py", 11⟩,
  ⟨"badly_formatted_function", "ruff-issues.py", 12⟩,
  ⟨"badly_formatted_function", "ruff-issues.py", 13⟩,
  ⟨"badly_formatted_function", "ruff-issues.py", 15⟩,
  ⟨"badlyNamedClass", "ruff-issues.py", 18⟩,
  ⟨"badlyNamedClass", "ruff-issues.py", 20⟩,
  ⟨"badlyNamedClass", "ruff-issues.py", 22⟩,
  ⟨"unused_variable_function", "ruff-issues.py", 27⟩,
  ⟨"unreachable_code", "ruff-issues.py", 34⟩,
  ⟨"missing_blank_lines", "ruff-issues.py", 38⟩,
  ⟨"constant_lowercase", "ruff-issues.py", 42⟩,
  ⟨"comparison_issues", "ruff-issues.py", 47⟩,
  ⟨"comparison_issues", "ruff-issues.py", 49⟩,
  ⟨"comparison_issues", "ruff-issues.py", 51⟩,
  ⟨"fstring_issues", "ruff-issues.py", 58⟩,
  ⟨"square", "ruff-issues.py", 63⟩,
  ⟨"bare_except_handler", "ruff-issues.py", 70⟩,
  ⟨"mutable_default", "ruff-issues.py", 75⟩,
  ⟨"assert_tuple", "ruff-issues.py", 82⟩,
  ⟨"duplicate_dict", "ruff-issues.py", 88⟩]

/-- All violation examples of the corpus. -/
def violationExamples : List ViolationExample := mypyExamples ++ ruffExamples

/-- The lines of the fixture file a violation example lives in. -/
def exampleSrc (e : ViolationExample) : List String :=
  if e.file == "mypy-issues.py" then mypyIssuesLines else ruffIssuesLines

/-- The violating line of a violation example. -/
def exampleLine (e : ViolationExample) : String :=
  lineAt (exampleSrc e) e.violatingLine

/-- Does the code part of a line call an input or output routine? -/
def hasIOCall (l : String) : Bool :=
  strContains (codePart l) "print(" || strContains (codePart l) "input(" ||
    strContains (codePart l) "open("

/-- The corpus: each fixture file of the repository with its path. -/
def fixtures : List (String × List String) :=
  [("test-fixtures/mypy-issues.py", mypyIssuesLines),
   ("test-fixtures/ruff-issues.py", ruffIssuesLines)]

/-- The tool a fixture file targets, read off its first header line. -/
def toolOf (lines : List String) : String :=
  if strContains (lineAt lines 1) "type checking" then "type-checker"
  else if strContains (lineAt lines 1) "linting" then "linter"
  else "unknown"

/-- Claim C2: the corpus contains the two snippets the spec names.  In
`mypy-issues.py`, line 8 declares `returns_wrong_type` with return annotation
`-> str`, its body (line 9) is exactly `return 42`, followed by a blank line,
and line 9 carries an inline comment recording an incompatible-return-type
diagnostic.  In `ruff-issues.py`, the code part of line 10 is exactly `a=1`
and its inline comment records E225, missing whitespace around operator. -/
theorem C2_spec_named_snippets :
    lineAt mypyIssuesLines 8 = "def returns_wrong_type() -> str:" ∧
    trimSpaces (codePart (lineAt mypyIssuesLines 9)) = "return 42" ∧
    lineAt mypyIssuesLines 10 = "" ∧
    strContains (lineAt mypyIssuesLines 9) "error: Incompatible return value type" = true ∧
    trimSpaces (codePart (lineAt ruffIssuesLines 10)) = "a=1" ∧
    strContains (lineAt ruffIssuesLines 10) "E225: Missing whitespace around operator" = true :=
  ⟨rfl, rfl, rfl, rfl, rfl, rfl⟩

/-- Claim C3: the corpus contains a violation example that is a dictionary
literal with two entries sharing the key `"key"` (lines 86 to 89 of
`ruff-issues.py`), and the inline comment on its violating line records a
duplicate-key diagnostic. -/
theorem C3_duplicate_key_example :
    lineAt ruffIssuesLines 86 = "duplicate_dict = \x7b" ∧
    trimSpaces (codePart (lineAt ruffIssuesLines 87)) = "\"key\": 1," ∧
    trimSpaces (codePart (lineAt ruffIssuesLines 88)) = "\"key\": 2," ∧
    strContains (lineAt ruffIssuesLines 88) "Duplicate key" = true ∧
    lineAt ruffIssuesLines 89 = "\x7d" ∧
    (⟨"duplicate_dict", "ruff-issues.py", 88⟩ : ViolationExample) ∈ violationExamples :=
  ⟨rfl, rfl, rfl, rfl, rfl, by decide⟩

/-- Claim C4: the corpus contains a function parameter defaulted to an empty
mutable list (`ruff-issues.py` line 75) whose inline comment records the
mutable-default-argument warning B006, and a comparison `x == None`
(`ruff-issues.py` line 47) whose inline comment records E711, recommending
the identity comparison `is None` instead. -/
theorem C4_mutable_default_and_none_comparison :
    trimSpaces (codePart (lineAt ruffIssuesLines 75)) = "def mutable_default(items=[]):" ∧
    strContains (lineAt ruffIssuesLines 75)
      "B006: Do not use mutable data structures for argument defaults" = true ∧
    strContains (codePart (lineAt ruffIssuesLines 47)) "x == None" = true ∧
    strContains (lineAt ruffIssuesLines 47)
      "E711: Comparison to None should be \x27is None\x27" = true :=
  ⟨rfl, rfl, rfl, rfl⟩

/-- Claim C5, counterexample: not every violation example's violating line
carries a comment.  The bare-except example's violating line
(`ruff-issues.py` line 70, `except Exception:`) contains no `#` at all; its
expected kind appears only in the standalone section comment on line 66. -/
theorem C5_counterexample :
    (⟨"bare_except_handler", "ruff-issues.py", 70⟩ : ViolationExample) ∈ violationExamples ∧
    exampleLine ⟨"bare_except_handler", "ruff-issues.py", 70⟩ = "    except Exception:" ∧
    hasComment (exampleLine ⟨"bare_except_handler", "ruff-issues.py", 70⟩) = false ∧
    ¬ (∀ e ∈ violationExamples, hasComment (exampleLine e) = true) :=
  ⟨by decide, rfl, rfl, by decide⟩

/-- Claim C5, amended: every violation example except `missing_return`
(mypy line 22), `missing_blank_lines` (ruff line 38) and
`bare_except_handler` (ruff line 70) carries a comment on its violating line;
those three lack one there, and their expected diagnostic is recorded instead
in a standalone comment nearby (mypy line 24, ruff line 37 and ruff line 66
respectively). -/
theorem C5_amended_examples_commented :
    violationExamples.all (fun e =>
      e.name == "missing_return" || e.name == "missing_blank_lines" ||
      e.name == "bare_except_handler" || hasComment (exampleLine e)) = true ∧
    hasComment (exampleLine ⟨"missing_return", "mypy-issues.py", 22⟩) = false ∧
    hasComment (exampleLine ⟨"missing_blank_lines", "ruff-issues.py", 38⟩) = false ∧
    hasComment (exampleLine ⟨"bare_except_handler", "ruff-issues.py", 70⟩) = false ∧
    hasComment (lineAt mypyIssuesLines 24) = true ∧
    hasComment (lineAt ruffIssuesLines 37) = true ∧
    hasComment (lineAt ruffIssuesLines 66) = true :=
  ⟨rfl, rfl, rfl, rfl, rfl, rfl, rfl⟩

/-- Claim C6, counterexample: the snippets are not free of input/output.
Line 14 of `mypy-issues.py` is `print(s)`, an output call in the code part of
the line, so the universally quantified no-I/O statement fails. -/
theorem C6_counterexample :
    "    print(s)" ∈ mypyIssuesLines ∧
    hasIOCall "    print(s)" = true ∧
    ¬ (∀ l ∈ allFixtureLines, hasIOCall l = false) :=
  ⟨by decide, rfl, by decide⟩

set_option maxRecDepth 8000 in
/-- Claim C6, amended: no line of either fixture file mentions a source of
randomness, and exactly three lines of the corpus contain an I/O call in
their code part, all of them `print` calls (mypy lines 14 and 68, ruff line
34); the fixtures are otherwise inert text consumed only by static
analysis. -/
theorem C6_amended_no_randomness :
    allFixtureLines.all (fun l => !(strContains l "random")) = true ∧
    allFixtureLines.filter hasIOCall =
      ["    print(s)",
       "    print(obj.nonexistent)  # error: \"MyClass\" has no attribute \"nonexistent\"",
       "    print(\"never reached\")  # F821 style: unreachable code after return"] :=
  ⟨rfl, rfl⟩

/-- Claim C8: the corpus maps exactly the two tool names, read off each
file's header line, to exactly one fixture file each: `type-checker` to
`test-fixtures/mypy-issues.py` and `linter` to `test-fixtures/ruff-issues.py`,
with no further fixture file. -/
theorem C8_corpus_mapping :
    fixtures.map (fun f => (toolOf f.2, f.1)) =
      [("type-checker", "test-fixtures/mypy-issues.py"),
       ("linter", "test-fixtures/ruff-issues.py")] ∧
    fixtures.length = 2 :=
  ⟨rfl, rfl⟩

set_option maxRecDepth 8000 in
/-- Claim C9: the two fixture files together total exactly 246 lines
(157 lines in `mypy-issues.py` and 89 in `ruff-issues.py`), matching the
spec's figure of approximately 246 lines. -/
theorem C9_total_line_count :
    mypyIssuesLines.length = 157 ∧ ruffIssuesLines.length = 89 ∧
    mypyIssuesLines.length + ruffIssuesLines.length = 246 :=
  ⟨rfl, rfl, rfl⟩

/-- Claim C10: the violation example of `ruff-issues.py` annotated F541
(f-string without placeholders), line 58, assigns the plain string literal
`"hello"` with no `f` prefix, and no line of its snippet (lines 57 to 59)
contains an f-string literal at all. -/
theorem C10_f541_without_fstring :
    lineAt ruffIssuesLines 58 =
      "    greeting = \"hello\"  # F541: f-string without placeholders" ∧
    trimSpaces (codePart (lineAt ruffIssuesLines 58)) = "greeting = \"hello\"" ∧
    strContains (lineAt ruffIssuesLines 58) "F541: f-string without placeholders" = true ∧
    strContains (codePart (lineAt ruffIssuesLines 58)) "f\"" = false ∧
    strContains (codePart (lineAt ruffIssuesLines 58)) "f\x27" = false ∧
    strContains (codePart (lineAt ruffIssuesLines 57)) "f\"" = false ∧
    strContains (codePart (lineAt ruffIssuesLines 59)) "f\"" = false :=
  ⟨rfl, rfl, rfl, rfl, rfl, rfl, rfl⟩

end Vibecop
